import Mathlib

/-!
Verification development for the memos command-line client
(`memos-cli.py`).  The Python source is shallowly embedded: every
function of the script becomes a pure Lean function; the outside world
(stdin, clipboard utilities, HTTP responses) is a `World` record, and a
run produces a `RunResult` recording the process exit code, the lines
printed to stdout, the network calls issued, the clipboard-copy
subprocess invocations, and how many times the configuration was
loaded.  Python strings are modelled as Lean `String`s, with the
slicing / splitting / stripping operations re-implemented over the
underlying character list so that they mirror Python's code-point
semantics and evaluate by kernel reduction.
-/

/-- Single-quote character, used in the search filter and messages. -/
def squote : String := String.mk [Char.ofNat 39]

/-- Python truthiness of an optional string (`not x` is true exactly
when `x` is `None` or the empty string). -/
def otruthy : Option String → Bool
  | none => false
  | some s => !(s == "")

/-- Python `str.rstrip('/')`: drop trailing slash characters. -/
def rstripSlash (s : String) : String :=
  String.mk ((s.data.reverse.dropWhile (fun c => c == Char.ofNat 47)).reverse)

/-- Python `str.strip()`: drop leading and trailing whitespace. -/
def pyStrip (s : String) : String :=
  String.mk
    (((s.data.dropWhile Char.isWhitespace).reverse.dropWhile Char.isWhitespace).reverse)

/-- Python `s[:n]`: the first `n` characters (code points). -/
def pyTake (n : Nat) (s : String) : String :=
  String.mk (s.data.take n)

/-- Python `s.split(chr(10))[0]`: the characters before the first newline. -/
def pyFirstLine (s : String) : String :=
  String.mk (s.data.takeWhile (fun c => !(c == Char.ofNat 10)))

/-- Python `s.lower()` (modelled character-wise). -/
def pyLower (s : String) : String :=
  String.mk (s.data.map Char.toLower)

/-- Fuel-driven core of Python `str.replace`: replace every
(non-overlapping, leftmost-first) occurrence of `pat` by `rep`. -/
def replaceListAux (pat rep : List Char) : Nat → List Char → List Char
  | 0, l => l
  | _ + 1, [] => []
  | fuel + 1, c :: rest =>
    if pat.isPrefixOf (c :: rest) && !pat.isEmpty then
      rep ++ replaceListAux pat rep fuel ((c :: rest).drop pat.length)
    else
      c :: replaceListAux pat rep fuel rest

/-- Python `s.replace(pat, rep)` for a non-empty pattern. -/
def pyReplace (s pat rep : String) : String :=
  String.mk (replaceListAux pat.data rep.data s.data.length s.data)

/-- Python `name.split('/')[-1]`: the characters after the last slash
(`name` itself when it has no slash). -/
def memoId (name : String) : String :=
  String.mk ((name.data.reverse.takeWhile (fun c => !(c == Char.ofNat 47))).reverse)

/-- The environment the configuration is read from: merged view of the
process environment and `~/.memos.conf` (a missing key is `none`). -/
structure Env where
  home : String
  url : Option String
  token : Option String
  visibility : Option String
  advFeatures : Option String
deriving Repr, DecidableEq

/-- `Path("~/.memos.conf").expanduser()`. -/
def configPath (home : String) : String := home ++ "/.memos.conf"

/-- The configuration returned by `get_config`. -/
structure Config where
  baseUrl : String
  token : String
  visibility : String
  advFeat : Bool
deriving Repr, DecidableEq

/-- `get_config`: read URL, token, visibility (default `PRIVATE`) and
the advanced-features toggle (default `false`, true iff the value
lower-cases to `true`).  When the URL or the token is `None` or empty
the script prints `Error: Credentials missing in <path>` and exits
with code 12; this is modelled by the `.error` branch carrying the
printed diagnostic. -/
def get_config (env : Env) : Except String Config :=
  if otruthy env.url && otruthy env.token then
    .ok
      { baseUrl := rstripSlash (env.url.getD "")
        token := env.token.getD ""
        visibility := env.visibility.getD "PRIVATE"
        advFeat := pyLower (env.advFeatures.getD "false") == "true" }
  else
    .error ("Error: Credentials missing in " ++ configPath env.home)

/-- Which external clipboard-copy utilities `shutil.which` finds. -/
structure CopyTools where
  xclip : Bool
  wlcopy : Bool
deriving Repr, DecidableEq

/-- `copy_to_clipboard`: pipe the text to `xclip` if present, else to
`wl-copy` if present, else do nothing.  The subprocess result is
discarded (`communicate` is called, its outcome ignored), so the model
returns only the list of spawn events — there is no failure outcome. -/
def copy_to_clipboard (tools : CopyTools) (text : String) : List (String × String) :=
  if tools.xclip then [("xclip", text)]
  else if tools.wlcopy then [("wl-copy", text)]
  else []

/-- A memo as parsed out of an API JSON response. -/
structure Memo where
  name : String
  content : String
deriving Repr, DecidableEq

/-- One outbound HTTP request, as observable at the API boundary. -/
structure NetCall where
  method : String
  url : String
  params : List (String × String)
  bodyContent : Option String
  bodyVisibility : Option String
deriving Repr, DecidableEq

/-- The state of the outside world for one invocation: stdin, the
clipboard, and the response the server would give to each request the
script can make (an `Except.error` is a transport error / non-2xx
status raised by `raise_for_status`). -/
structure World where
  stdinIsTTY : Bool
  stdinData : String
  clipPaste : Option String
  copyTools : CopyTools
  listResp : Except String (List Memo)
  searchResp : Except String (List Memo)
  postResp : Except String Memo
  updateResp : Except String Unit
  deleteResp : Except String Unit

/-- The observable outcome of one invocation of the script. -/
structure RunResult where
  exitCode : Nat
  stdout : List String
  netCalls : List NetCall
  clipCopies : List (String × String)
  configLoads : Nat
deriving Repr, DecidableEq

/-- `list_last_memo`: GET the memos collection with `page_size=1`,
print the most recent memo (or `No memos found.`), copy its URL. -/
def list_last_memo (cfg : Config) (w : World) : RunResult :=
  let endpoint := cfg.baseUrl ++ "/api/v1/memos"
  let call : NetCall :=
    { method := "GET", url := endpoint, params := [("page_size", "1")]
      bodyContent := none, bodyVisibility := none }
  match w.listResp with
  | .error e =>
    { exitCode := 13, stdout := ["Error: Could not list memo: " ++ e]
      netCalls := [call], clipCopies := [], configLoads := 0 }
  | .ok [] =>
    { exitCode := 0, stdout := ["No memos found."]
      netCalls := [call], clipCopies := [], configLoads := 0 }
  | .ok (m :: _) =>
    let mid := memoId m.name
    let murl := cfg.baseUrl ++ "/memos/" ++ mid
    { exitCode := 0
      stdout :=
        ["--- Latest Memo [ID: " ++ mid ++ "] ---", m.content,
         "----------------------------------", "URL: " ++ murl]
      netCalls := [call]
      clipCopies := copy_to_clipboard w.copyTools murl
      configLoads := 0 }

/-- The preview built for each search hit: strip every occurrence of
the two envelope markers, keep the first line, keep at most 60
characters. -/
def searchPreview (content : String) : String :=
  pyTake 60 (pyFirstLine (pyReplace (pyReplace content ("```text" ++ "\n") "") ("\n" ++ "```") ""))

/-- The full preview line printed for one search hit. -/
def searchLine (m : Memo) : String :=
  "[" ++ memoId m.name ++ "] " ++ searchPreview m.content ++ "..."

/-- `search_memos`: GET with a `content.contains('<query>')` filter and
`page_size=5`, print a banner, one preview line per hit, a footer. -/
def search_memos (cfg : Config) (w : World) (query : String) : RunResult :=
  let endpoint := cfg.baseUrl ++ "/api/v1/memos"
  let call : NetCall :=
    { method := "GET", url := endpoint
      params :=
        [("filter", "content.contains(" ++ squote ++ query ++ squote ++ ")"),
         ("page_size", "5")]
      bodyContent := none, bodyVisibility := none }
  match w.searchResp with
  | .error e =>
    { exitCode := 13, stdout := ["Error: Search failed: " ++ e]
      netCalls := [call], clipCopies := [], configLoads := 0 }
  | .ok [] =>
    { exitCode := 0
      stdout := ["No memos found matching: " ++ squote ++ query ++ squote]
      netCalls := [call], clipCopies := [], configLoads := 0 }
  | .ok (m :: ms) =>
    { exitCode := 0
      stdout :=
        ("--- Search Results for " ++ squote ++ query ++ squote ++ " (Top 5) ---")
          :: ((m :: ms).map searchLine
              ++ ["-------------------------------------------"])
      netCalls := [call], clipCopies := [], configLoads := 0 }

/-- `delete_memo`: DELETE the memo by id. -/
def delete_memo (cfg : Config) (w : World) (mid : String) : RunResult :=
  let endpoint := cfg.baseUrl ++ "/api/v1/memos/" ++ mid
  let call : NetCall :=
    { method := "DELETE", url := endpoint, params := []
      bodyContent := none, bodyVisibility := none }
  match w.deleteResp with
  | .ok _ =>
    { exitCode := 0, stdout := ["Success: Memo " ++ mid ++ " deleted."]
      netCalls := [call], clipCopies := [], configLoads := 0 }
  | .error e =>
    { exitCode := 13, stdout := ["Error: Delete failed: " ++ e]
      netCalls := [call], clipCopies := [], configLoads := 0 }

/-- The fixed fenced envelope the script wraps posted content in
(`f-string` backticks-text fence around the input). -/
def wrapEnvelope (s : String) : String :=
  "```text" ++ "\n" ++ s ++ "\n" ++ "```"

/-- `update_memo`: require piped stdin (TTY exits 11), a blank payload
is a silent exit 0, otherwise PATCH the enveloped content with
`update_mask=content,visibility`. -/
def update_memo (cfg : Config) (w : World) (mid : String) : RunResult :=
  if w.stdinIsTTY then
    { exitCode := 11, stdout := ["Error: No piped input detected for update."]
      netCalls := [], clipCopies := [], configLoads := 0 }
  else
    let inputData := pyStrip w.stdinData
    if inputData == "" then
      { exitCode := 0, stdout := [], netCalls := [], clipCopies := [], configLoads := 0 }
    else
      let endpoint := cfg.baseUrl ++ "/api/v1/memos/" ++ mid
      let call : NetCall :=
        { method := "PATCH", url := endpoint ++ "?update_mask=content,visibility"
          params := []
          bodyContent := some (wrapEnvelope inputData)
          bodyVisibility := some cfg.visibility }
      match w.updateResp with
      | .ok _ =>
        { exitCode := 0, stdout := ["Success: Memo " ++ mid ++ " updated."]
          netCalls := [call], clipCopies := [], configLoads := 0 }
      | .error e =>
        { exitCode := 13, stdout := ["Error: Update failed: " ++ e]
          netCalls := [call], clipCopies := [], configLoads := 0 }

/-- `post_to_memos`: re-load the configuration (the script calls
`get_config()` again inside this handler), source the content from the
clipboard (`-c`) or from piped stdin, then POST the enveloped content.
`configLoads` is 1 in every branch: this handler always performs its
own configuration load.  The hint lines use the script's file name
(`os.path.basename` of the script itself), a constant here. -/
def post_to_memos (env : Env) (w : World)
    (showDelete showUpdate fromClipboard : Bool) : RunResult :=
  match get_config env with
  | .error msg =>
    { exitCode := 12, stdout := [msg], netCalls := [], clipCopies := [], configLoads := 1 }
  | .ok cfg =>
    let afterInput := fun (inputData : String) =>
      let memoContent := wrapEnvelope inputData
      let endpoint := cfg.baseUrl ++ "/api/v1/memos"
      let call : NetCall :=
        { method := "POST", url := endpoint, params := []
          bodyContent := some memoContent
          bodyVisibility := some cfg.visibility }
      match w.postResp with
      | .error e =>
        { exitCode := 13, stdout := ["Error: API Request failed: " ++ e]
          netCalls := [call], clipCopies := [], configLoads := 1 }
      | .ok data =>
        let mid := memoId data.name
        let fullMemoUrl := cfg.baseUrl ++ "/memos/" ++ mid
        let hints :=
          (if showDelete then ["To delete this memo run: memos-cli.py -D " ++ mid] else [])
            ++ (if showUpdate then
                  ["To update this memo run: [command] | memos-cli.py -U " ++ mid]
                else [])
        { exitCode := 0
          stdout := ("Success: " ++ fullMemoUrl) :: hints
          netCalls := [call]
          clipCopies := copy_to_clipboard w.copyTools fullMemoUrl
          configLoads := 1 }
    if fromClipboard then
      match w.clipPaste with
      | none =>
        { exitCode := 11
          stdout := ["Error: Clipboard is empty or utility (xclip/wl-paste) not found."]
          netCalls := [], clipCopies := [], configLoads := 1 }
      | some s =>
        if s == "" then
          { exitCode := 11
            stdout := ["Error: Clipboard is empty or utility (xclip/wl-paste) not found."]
            netCalls := [], clipCopies := [], configLoads := 1 }
        else afterInput s
    else
      if w.stdinIsTTY then
        { exitCode := 11
          stdout := ["Error: No piped input detected. Use -c to post from clipboard."]
          netCalls := [], clipCopies := [], configLoads := 1 }
      else
        let inputData := pyStrip w.stdinData
        if inputData == "" then
          { exitCode := 0, stdout := [], netCalls := [], clipCopies := [], configLoads := 1 }
        else afterInput inputData

/-- The parsed command-line flags (`args`); `-s`, `-D`, `-U` carry a
string value when supplied, `none` when absent. -/
structure Args where
  d : Bool
  u : Bool
  del : Option String
  upd : Option String
  last : Bool
  search : Option String
  clipboard : Bool
deriving Repr, DecidableEq

/-- The six actions the entry point can dispatch to. -/
inductive CliAction where
  | listLast
  | searchA
  | clipPost
  | deleteA
  | updateA
  | post
deriving Repr, DecidableEq

/-- Which action the `if args.last / elif args.search / elif
args.clipboard / elif args.delete / elif args.update / else` chain of
the entry point selects, including Python truthiness of the
string-valued flags (an empty string is falsy). -/
def dispatchAction (args : Args) : CliAction :=
  if args.last then .listLast
  else if otruthy args.search then .searchA
  else if args.clipboard then .clipPost
  else if otruthy args.del then .deleteA
  else if otruthy args.upd then .updateA
  else .post

/-- The result of `sys.exit(12)` in a gating branch: nothing printed,
nothing sent. -/
def featureDisabledExit : RunResult :=
  { exitCode := 12, stdout := [], netCalls := [], clipCopies := [], configLoads := 0 }

/-- The `__main__` block: load the configuration once, then dispatch;
`-L`, `-s` and `-c` are gated behind the advanced-features toggle and
exit 12 when it is off.  The final `configLoads` bump accounts for the
entry point's own `get_config()` call. -/
def runMain (env : Env) (args : Args) (w : World) : RunResult :=
  match get_config env with
  | .error msg =>
    { exitCode := 12, stdout := [msg], netCalls := [], clipCopies := [], configLoads := 1 }
  | .ok cfg =>
    let r :=
      match dispatchAction args with
      | .listLast =>
        if cfg.advFeat then list_last_memo cfg w else featureDisabledExit
      | .searchA =>
        if cfg.advFeat then search_memos cfg w (args.search.getD "") else featureDisabledExit
      | .clipPost =>
        if cfg.advFeat then post_to_memos env w args.d args.u true else featureDisabledExit
      | .deleteA => delete_memo cfg w (args.del.getD "")
      | .updateA => update_memo cfg w (args.upd.getD "")
      | .post => post_to_memos env w args.d args.u false
    { r with configLoads := r.configLoads + 1 }

/-- A world with a TTY stdin and a server that rejects everything:
used to instantiate witnesses that never reach the network. -/
def quietWorld : World :=
  { stdinIsTTY := true, stdinData := "", clipPaste := none
    copyTools := { xclip := false, wlcopy := false }
    listResp := .error "down", searchResp := .error "down"
    postResp := .error "down", updateResp := .error "down"
    deleteResp := .error "down" }

/-- An argument record with every flag absent (plain `memo`). -/
def noArgs : Args :=
  { d := false, u := false, del := none, upd := none
    last := false, search := none, clipboard := false }

def c1Env : Env :=
  { home := "/home/u", url := none, token := some "tok"
    visibility := none, advFeatures := none }

def c10Env : Env :=
  { home := "/home/u", url := some "/", token := some "tok"
    visibility := none, advFeatures := none }

def c10World : World :=
  { stdinIsTTY := false, stdinData := "note", clipPaste := none
    copyTools := { xclip := false, wlcopy := false }
    listResp := .error "down", searchResp := .error "down"
    postResp := .ok { name := "memos/42", content := "c" }
    updateResp := .error "down", deleteResp := .error "down" }

def c2Env : Env :=
  { home := "/home/u", url := some "http://x", token := some "tok"
    visibility := none, advFeatures := none }

def c2Args : Args :=
  { d := false, u := false, del := none, upd := none
    last := false, search := some "", clipboard := false }

def c2World : World :=
  { stdinIsTTY := false, stdinData := "hi", clipPaste := none
    copyTools := { xclip := false, wlcopy := false }
    listResp := .error "down", searchResp := .error "down"
    postResp := .ok { name := "memos/7", content := "c" }
    updateResp := .error "down", deleteResp := .error "down" }

def c2wEnv : Env :=
  { home := "/home/u", url := some "http://x", token := some "tok"
    visibility := none, advFeatures := some "false" }

def c2wArgs : Args :=
  { d := false, u := false, del := none, upd := none
    last := true, search := none, clipboard := false }

def c3Env : Env :=
  { home := "/home/u", url := some "http://x", token := some "tok"
    visibility := none, advFeatures := none }

def c4World : World :=
  { stdinIsTTY := false, stdinData := "  \n\t ", clipPaste := none
    copyTools := { xclip := false, wlcopy := false }
    listResp := .error "down", searchResp := .error "down"
    postResp := .error "down", updateResp := .error "down"
    deleteResp := .error "down" }

def c4Args : Args :=
  { d := false, u := false, del := none, upd := some "9"
    last := false, search := none, clipboard := false }

/-- The priority order the spec claims for action-triggering flags
(default Post is the fallback, not listed). -/
def priorityOrder : List CliAction :=
  [.listLast, .searchA, .clipPost, .deleteA, .updateA]

/-- Whether an action-triggering flag was supplied on the command line
(argparse stores `none` for an absent value flag, `some v` — possibly
with `v` empty — for a supplied one). -/
def suppliedFlag (args : Args) : CliAction → Bool
  | .listLast => args.last
  | .searchA => args.search.isSome
  | .clipPost => args.clipboard
  | .deleteA => args.del.isSome
  | .updateA => args.upd.isSome
  | .post => true

/-- Whether a flag's value is truthy in Python's sense — what the
`elif` chain actually tests (an empty string is falsy). -/
def truthyTrigger (args : Args) : CliAction → Bool
  | .listLast => args.last
  | .searchA => otruthy args.search
  | .clipPost => args.clipboard
  | .deleteA => otruthy args.del
  | .updateA => otruthy args.upd
  | .post => true

/-- The selection rule in the claim's words: the first action in the
priority order whose flag was supplied wins; default Post otherwise. -/
def claimedDispatch (args : Args) : CliAction :=
  (priorityOrder.filter (suppliedFlag args)).headD .post

/-- The selection rule with Python truthiness at each step: the first
action in the priority order whose flag carries a truthy value. -/
def truthyDispatch (args : Args) : CliAction :=
  (priorityOrder.filter (truthyTrigger args)).headD .post

def c5Args : Args :=
  { d := false, u := false, del := some "5", upd := none
    last := false, search := some "", clipboard := false }

def c5Env : Env :=
  { home := "/home/u", url := some "http://x", token := some "tok"
    visibility := none, advFeatures := some "true" }

def c5World : World :=
  { stdinIsTTY := false, stdinData := "", clipPaste := none
    copyTools := { xclip := false, wlcopy := false }
    listResp := .error "down", searchResp := .error "down"
    postResp := .error "down", updateResp := .error "down"
    deleteResp := .ok () }

def c6World : World :=
  { stdinIsTTY := true, stdinData := "", clipPaste := none
    copyTools := { xclip := false, wlcopy := false }
    listResp := .error "down"
    searchResp := .ok
      [{ name := "memos/3", content := "```text" ++ "\nfix the bug\nmore detail\n" ++ "```" }]
    postResp := .error "down", updateResp := .error "down"
    deleteResp := .error "down" }

def c6Cfg : Config :=
  { baseUrl := "http://x", token := "tok", visibility := "PRIVATE", advFeat := true }

def c6Memo : Memo :=
  { name := "memos/3", content := "```text" ++ "\nfix the bug\nmore detail\n" ++ "```" }

/-- The envelope in the spec's words: the literal backticks-text
fence, a newline, the raw content, a newline, the closing fence. -/
def specEnvelope (s : String) : String :=
  "```" ++ "text" ++ "\n" ++ s ++ "\n" ++ "```"

/-- The text a Post sources: the (pre-stripped) clipboard paste under
`-c`, the stripped stdin read otherwise. -/
def sourcedText (w : World) (fromClipboard : Bool) : String :=
  if fromClipboard then w.clipPaste.getD "" else pyStrip w.stdinData

def c7Cfg : Config :=
  { baseUrl := "http://x", token := "tok", visibility := "PRIVATE", advFeat := false }

def c7Env : Env :=
  { home := "/home/u", url := some "http://x", token := some "tok"
    visibility := none, advFeatures := none }

def c7World : World :=
  { stdinIsTTY := false, stdinData := "hello\n", clipPaste := none
    copyTools := { xclip := false, wlcopy := false }
    listResp := .error "down", searchResp := .error "down"
    postResp := .error "down", updateResp := .ok ()
    deleteResp := .error "down" }

def c7Call : NetCall :=
  { method := "PATCH", url := "http://x/api/v1/memos/7?update_mask=content,visibility"
    params := [], bodyContent := some (wrapEnvelope "hello")
    bodyVisibility := some "PRIVATE" }

def c8Env : Env :=
  { home := "/home/u", url := some "http://x", token := some "tok"
    visibility := none, advFeatures := none }

def c8World : World :=
  { stdinIsTTY := false, stdinData := "note", clipPaste := none
    copyTools := { xclip := false, wlcopy := false }
    listResp := .error "down", searchResp := .error "down"
    postResp := .ok { name := "memos/42", content := "c" }
    updateResp := .error "down", deleteResp := .error "down" }

/-- A run result with the clipboard-copy subprocess events removed:
what remains is everything the user and the server can observe. -/
def eraseClipEvents (r : RunResult) : RunResult :=
  { r with clipCopies := [] }

/-! ## Helper lemmas and shared concrete inputs -/

/-- When both credentials are (Python-)truthy, `get_config` succeeds
with the record read off the environment. -/
theorem get_config_ok (env : Env)
    (hu : otruthy env.url = true) (ht : otruthy env.token = true) :
    get_config env = .ok
      { baseUrl := rstripSlash (env.url.getD "")
        token := env.token.getD ""
        visibility := env.visibility.getD "PRIVATE"
        advFeat := pyLower (env.advFeatures.getD "false") == "true" } := by
  unfold get_config
  simp [hu, ht]

/-! ## C1 — missing credentials exit 12 before anything else -/

/-- C1: whenever the server URL or the token resolves to empty or is
absent, the run exits with code 12, issues no network call, and its
entire stdout is the single diagnostic naming the expected
configuration file path (`<home>/.memos.conf`) — nothing else
executes. -/
theorem config_missing_exits_12_before_any_action
    (env : Env) (args : Args) (w : World)
    (h : otruthy env.url = false ∨ otruthy env.token = false) :
    (runMain env args w).exitCode = 12 ∧
    (runMain env args w).netCalls = [] ∧
    (runMain env args w).stdout =
      ["Error: Credentials missing in " ++ configPath env.home] := by
  unfold runMain get_config
  rcases h with h | h <;> simp [h]

/-- C1 witness: a configuration with no URL at all. -/
theorem config_missing_exits_12_before_any_action_witness :
    (runMain c1Env noArgs quietWorld).exitCode = 12 ∧
    (runMain c1Env noArgs quietWorld).netCalls = [] ∧
    (runMain c1Env noArgs quietWorld).stdout =
      ["Error: Credentials missing in " ++ configPath c1Env.home] :=
  config_missing_exits_12_before_any_action c1Env noArgs quietWorld
    (Or.inl (by decide))

/-! ## C10 — an all-slash URL defeats the emptiness check -/

/-- C10: `MEMOS_URL` equal to the single character `/` is truthy, so
`get_config` does not exit 12, yet the trailing-slash strip performed
after the check empties it: the returned `baseUrl` is the empty
string, and a subsequent Post issues its API call against the
server-less URL `/api/v1/memos` — the non-empty-serverURL invariant is
not maintained at API-call time. -/
theorem slash_url_passes_check_empty_base :
    otruthy c10Env.url = true ∧
    rstripSlash "/" = "" ∧
    get_config c10Env =
      .ok { baseUrl := "", token := "tok", visibility := "PRIVATE", advFeat := false } ∧
    (runMain c10Env noArgs c10World).netCalls.map NetCall.url = ["/api/v1/memos"] := by
  refine ⟨by decide, by decide, by rfl, by decide⟩

/-! ## C2 — feature gating of -L / -s / -c -/

/-- C2 counterexample: the gated `-s` flag supplied with an empty
query while the advanced-features toggle is off does not exit 12 —
the empty string is falsy, the elif chain falls through to the
(ungated) default Post handler, a network call is performed, output is
printed, and the run exits 0. -/
theorem gated_empty_search_bypass_cx :
    c2Args.search = some "" ∧
    (get_config c2Env).toOption.map Config.advFeat = some false ∧
    (runMain c2Env c2Args c2World).exitCode = 0 ∧
    (runMain c2Env c2Args c2World).netCalls ≠ [] ∧
    (runMain c2Env c2Args c2World).stdout ≠ [] := by
  refine ⟨by decide, by decide, by decide, by decide, by decide⟩

/-- C2 amended: whenever the credentials are present, the toggle
resolves to false, and a gated flag is supplied with `-L` or `-c`, or
with `-s` carrying a non-empty query (an empty `-s` value is falsy and
falls through to a later, ungated action), the run exits 12
immediately with zero network calls and zero stdout. -/
theorem feature_gate_blocks_gated_flags
    (env : Env) (args : Args) (w : World)
    (hu : otruthy env.url = true) (ht : otruthy env.token = true)
    (hoff : pyLower (env.advFeatures.getD "false") ≠ "true")
    (hflag : args.last = true ∨ otruthy args.search = true ∨ args.clipboard = true) :
    (runMain env args w).exitCode = 12 ∧
    (runMain env args w).netCalls = [] ∧
    (runMain env args w).stdout = [] := by
  have hadv : (pyLower (env.advFeatures.getD "false") == "true") = false := by
    simp [hoff]
  cases hl : args.last with
  | true =>
    simp [runMain, get_config_ok env hu ht, dispatchAction, hl, hadv,
      featureDisabledExit]
  | false =>
    cases hs : otruthy args.search with
    | true =>
      simp [runMain, get_config_ok env hu ht, dispatchAction, hl, hs, hadv,
        featureDisabledExit]
    | false =>
      cases hc : args.clipboard with
      | true =>
        simp [runMain, get_config_ok env hu ht, dispatchAction, hl, hs, hc,
          hadv, featureDisabledExit]
      | false =>
        simp [hl, hs, hc] at hflag

/-- C2 witness: `-L` with the toggle explicitly off. -/
theorem feature_gate_blocks_gated_flags_witness :
    (runMain c2wEnv c2wArgs quietWorld).exitCode = 12 ∧
    (runMain c2wEnv c2wArgs quietWorld).netCalls = [] ∧
    (runMain c2wEnv c2wArgs quietWorld).stdout = [] :=
  feature_gate_blocks_gated_flags c2wEnv c2wArgs quietWorld
    (by decide) (by decide) (by decide) (Or.inl (by decide))

/-! ## C3 — TTY stdin aborts Post/Update with exit 11 -/

/-- C3: with valid credentials, whenever the dispatch selects Update
or the default (non-clipboard) Post and stdin is an interactive
terminal, the run exits with code 11 and issues no network call. -/
theorem tty_stdin_exits_11 (env : Env) (args : Args) (w : World)
    (hu : otruthy env.url = true) (ht : otruthy env.token = true)
    (htty : w.stdinIsTTY = true)
    (hd : dispatchAction args = .updateA ∨ dispatchAction args = .post) :
    (runMain env args w).exitCode = 11 ∧
    (runMain env args w).netCalls = [] := by
  rcases hd with hd | hd <;>
    simp [runMain, get_config_ok env hu ht, hd, update_memo, post_to_memos,
      get_config_ok env hu ht, htty]

/-- C3 witness: plain `memo` run from a terminal with nothing piped. -/
theorem tty_stdin_exits_11_witness :
    (runMain c3Env noArgs quietWorld).exitCode = 11 ∧
    (runMain c3Env noArgs quietWorld).netCalls = [] :=
  tty_stdin_exits_11 c3Env noArgs quietWorld
    (by decide) (by decide) (by decide) (Or.inr (by decide))

/-! ## C4 — blank piped input is a silent success no-op -/

/-- C4: with valid credentials, whenever the dispatch selects Update
or the default (non-clipboard) Post, stdin is piped, and its content
strips to the empty string, the run exits with code 0, issues no
network call, and prints nothing. -/
theorem empty_piped_input_silent_noop (env : Env) (args : Args) (w : World)
    (hu : otruthy env.url = true) (ht : otruthy env.token = true)
    (htty : w.stdinIsTTY = false)
    (hempty : pyStrip w.stdinData = "")
    (hd : dispatchAction args = .updateA ∨ dispatchAction args = .post) :
    (runMain env args w).exitCode = 0 ∧
    (runMain env args w).netCalls = [] ∧
    (runMain env args w).stdout = [] := by
  rcases hd with hd | hd <;>
    simp [runMain, get_config_ok env hu ht, hd, update_memo, post_to_memos,
      htty, hempty]

/-- C4 witness: `-U 9` with whitespace-only piped input. -/
theorem empty_piped_input_silent_noop_witness :
    (runMain c3Env c4Args c4World).exitCode = 0 ∧
    (runMain c3Env c4Args c4World).netCalls = [] ∧
    (runMain c3Env c4Args c4World).stdout = [] :=
  empty_piped_input_silent_noop c3Env c4Args c4World
    (by decide) (by decide) (by decide) (by decide) (Or.inl (by decide))

/-! ## C5 — action dispatch priority -/

/-- C5 counterexample: with `-s ""` and `-D 5` supplied together
(advanced features on), Search is the supplied flag of highest
priority, yet the run executes the Delete handler — the empty search
value is falsy, so first-match-wins over *supplied* flags does not
describe the code. -/
theorem dispatch_priority_cx :
    suppliedFlag c5Args .searchA = true ∧
    claimedDispatch c5Args = .searchA ∧
    dispatchAction c5Args = .deleteA ∧
    (runMain c5Env c5Args c5World).stdout = ["Success: Memo 5 deleted."] := by
  refine ⟨by decide, by decide, by decide, by decide⟩

/-- C5 amended: the executed action is the first in the order
List-Last > Search > Clipboard-Post > Delete > Update > default Post
whose flag carries a Python-truthy value (a value flag supplied with
an empty string is treated as absent); the dispatch is a function, so
exactly one action is ever selected. -/
theorem dispatch_first_truthy_match (args : Args) :
    dispatchAction args = truthyDispatch args := by
  unfold dispatchAction truthyDispatch priorityOrder
  cases hl : args.last <;>
    cases hs : otruthy args.search <;>
      cases hc : args.clipboard <;>
        cases hd : otruthy args.del <;>
          cases hu2 : otruthy args.upd <;>
            simp [truthyTrigger, hl, hs, hc, hd, hu2]

/-! ## C6 — search preview line format -/

/-- C6: on a non-empty search result, every printed preview line is
the memo id in brackets, a space, the content with every envelope
marker stripped then truncated to its first line and first 60
characters, and the ellipsis marker appended unconditionally; when the
unwrapped first line is at most 60 characters the preview is that
whole line (full content plus ellipsis). -/
theorem search_preview_line_format (cfg : Config) (w : World) (query : String)
    (m0 : Memo) (ms : List Memo)
    (hresp : w.searchResp = .ok (m0 :: ms)) :
    (search_memos cfg w query).stdout =
      ("--- Search Results for " ++ squote ++ query ++ squote ++ " (Top 5) ---")
        :: (((m0 :: ms).map fun m =>
              "[" ++ memoId m.name ++ "] "
                ++ pyTake 60 (pyFirstLine
                      (pyReplace (pyReplace m.content ("```text" ++ "\n") "")
                        ("\n" ++ "```") ""))
                ++ "...")
            ++ ["-------------------------------------------"]) ∧
    (∀ m : Memo,
        (pyFirstLine (pyReplace (pyReplace m.content ("```text" ++ "\n") "")
            ("\n" ++ "```") "")).length ≤ 60 →
        pyTake 60 (pyFirstLine
            (pyReplace (pyReplace m.content ("```text" ++ "\n") "") ("\n" ++ "```") ""))
          = pyFirstLine (pyReplace (pyReplace m.content ("```text" ++ "\n") "")
              ("\n" ++ "```") "")) := by
  constructor
  · simp [search_memos, hresp, searchLine, searchPreview]
  · intro m hm
    unfold pyTake
    apply String.ext
    simp only []
    exact List.take_of_length_le hm

/-- C6 witness: one enveloped two-line memo; its preview line is the
unwrapped first line plus the ellipsis marker. -/
theorem search_preview_line_format_witness :
    (search_memos c6Cfg c6World "bug").stdout =
      ("--- Search Results for " ++ squote ++ "bug" ++ squote ++ " (Top 5) ---")
        :: ((([c6Memo]).map fun m =>
              "[" ++ memoId m.name ++ "] "
                ++ pyTake 60 (pyFirstLine
                      (pyReplace (pyReplace m.content ("```text" ++ "\n") "")
                        ("\n" ++ "```") ""))
                ++ "...")
            ++ ["-------------------------------------------"]) ∧
    pyTake 60 (pyFirstLine
        (pyReplace (pyReplace c6Memo.content ("```text" ++ "\n") "") ("\n" ++ "```") ""))
      = pyFirstLine (pyReplace (pyReplace c6Memo.content ("```text" ++ "\n") "")
          ("\n" ++ "```") "") :=
  ⟨(search_preview_line_format c6Cfg c6World "bug" c6Memo [] (by rfl)).1,
   (search_preview_line_format c6Cfg c6World "bug" c6Memo [] (by rfl)).2 c6Memo
     (by decide)⟩

/-! ## C7 — API bodies carry the fixed fenced envelope -/

/-- C7: the envelope the code builds is exactly the spec's fence, and
every network call issued by Update or by Post (either input source)
carries as its JSON `content` field that envelope wrapped around the
sourced text. -/
theorem api_body_fenced_envelope (cfg : Config) (env : Env) (w : World)
    (mid : String) (dflag uflag clip : Bool) :
    (∀ s : String, wrapEnvelope s = specEnvelope s) ∧
    (∀ c ∈ (update_memo cfg w mid).netCalls,
        c.bodyContent = some (specEnvelope (pyStrip w.stdinData))) ∧
    (∀ c ∈ (post_to_memos env w dflag uflag clip).netCalls,
        c.bodyContent = some (specEnvelope (sourcedText w clip))) := by
  have henv : ∀ s : String, wrapEnvelope s = specEnvelope s := by
    intro s
    unfold wrapEnvelope specEnvelope
    have h : ("```text" : String) = "```" ++ "text" := by decide
    rw [h]
  refine ⟨henv, ?_, ?_⟩
  · intro c hc
    unfold update_memo at hc
    cases h1 : w.stdinIsTTY <;> simp [h1] at hc
    by_cases h2 : pyStrip w.stdinData = ""
    · simp [h2] at hc
    · cases h3 : w.updateResp <;> simp [h2, h3] at hc <;> simp [hc, henv]
  · intro c hc
    unfold post_to_memos at hc
    cases hg : get_config env <;> simp [hg] at hc
    cases clip with
    | true =>
      simp only [if_true] at hc
      cases hp : w.clipPaste with
      | none => simp [hp] at hc
      | some s =>
        simp only [hp] at hc
        by_cases h2 : s = ""
        · simp [h2] at hc
        · cases h3 : w.postResp <;> simp [h2, h3] at hc <;>
            simp [hc, henv, sourcedText, hp]
    | false =>
      simp only [if_false, Bool.false_eq_true] at hc
      cases h1 : w.stdinIsTTY <;> simp [h1] at hc
      by_cases h2 : pyStrip w.stdinData = ""
      · simp [h2] at hc
      · cases h3 : w.postResp <;> simp [h2, h3] at hc <;>
          simp [hc, henv, sourcedText]

/-- C7 witness: updating memo 7 with piped `hello` sends exactly one
PATCH whose content field is the enveloped text. -/
theorem api_body_fenced_envelope_witness :
    c7Call ∈ (update_memo c7Cfg c7World "7").netCalls ∧
    c7Call.bodyContent = some (specEnvelope (pyStrip c7World.stdinData)) :=
  ⟨by decide,
   (api_body_fenced_envelope c7Cfg c7Env c7World "7" false false false).2.1
     c7Call (by decide)⟩

/-! ## C8 — how often the configuration is loaded -/

/-- C8 counterexample: a plain Post invocation loads the configuration
twice — once in the entry point and once again inside
`post_to_memos`, which calls `get_config()` itself — refuting
"loaded exactly once, no handler re-reads it". -/
theorem post_reloads_config_cx :
    (runMain c8Env noArgs c8World).configLoads = 2 := by
  decide

/-- How many configuration loads each handler performs on its own. -/
theorem handler_config_loads (cfg : Config) (w : World) (env : Env)
    (mid query : String) (a b c : Bool) :
    (list_last_memo cfg w).configLoads = 0 ∧
    (search_memos cfg w query).configLoads = 0 ∧
    (delete_memo cfg w mid).configLoads = 0 ∧
    (update_memo cfg w mid).configLoads = 0 ∧
    (post_to_memos env w a b c).configLoads = 1 := by
  refine ⟨?_, ?_, ?_, ?_, ?_⟩
  · unfold list_last_memo
    cases w.listResp with
    | error e => rfl
    | ok l => cases l <;> rfl
  · unfold search_memos
    cases w.searchResp with
    | error e => rfl
    | ok l => cases l <;> rfl
  · unfold delete_memo
    cases w.deleteResp <;> rfl
  · unfold update_memo
    cases h1 : w.stdinIsTTY <;> simp [h1]
    by_cases h2 : pyStrip w.stdinData = "" <;> simp [h2]
    cases w.updateResp <;> rfl
  · unfold post_to_memos
    cases get_config env <;> simp
    cases c <;> simp
    · cases h1 : w.stdinIsTTY <;> simp [h1]
      by_cases h2 : pyStrip w.stdinData = "" <;> simp [h2]
      cases w.postResp <;> rfl
    · cases w.clipPaste with
      | none => rfl
      | some s =>
        simp only []
        by_cases h2 : s = "" <;> simp [h2]
        cases w.postResp <;> rfl

/-- C8 amended: the entry point loads the configuration exactly once,
and the Post handler (reached by default dispatch, or by `-c` with the
toggle on) performs one further load of its own — every other path
loads it exactly once in total.  The load is a pure function of the
environment, so the second load returns the same configuration. -/
theorem config_load_count (env : Env) (args : Args) (w : World) :
    (runMain env args w).configLoads =
      (match get_config env with
       | .error _ => 1
       | .ok cfg =>
         if dispatchAction args = .post
             ∨ (dispatchAction args = .clipPost ∧ cfg.advFeat = true)
         then 2 else 1) := by
  unfold runMain
  cases hg : get_config env with
  | error msg => simp
  | ok cfg =>
    have hload := handler_config_loads cfg w env (args.upd.getD "")
      (args.search.getD "") args.d args.u false
    cases hd : dispatchAction args <;>
      cases hadv : cfg.advFeat <;>
        simp [hd, hadv, featureDisabledExit, handler_config_loads,
          (handler_config_loads cfg w env (args.upd.getD "") (args.search.getD "")
            args.d args.u false).1,
          (handler_config_loads cfg w env (args.upd.getD "") (args.search.getD "")
            args.d args.u false).2.1,
          (handler_config_loads cfg w env (args.del.getD "") (args.search.getD "")
            args.d args.u false).2.2.1,
          (handler_config_loads cfg w env (args.upd.getD "") (args.search.getD "")
            args.d args.u false).2.2.2.1,
          (handler_config_loads cfg w env (args.upd.getD "") (args.search.getD "")
            args.d args.u true).2.2.2.2,
          (handler_config_loads cfg w env (args.upd.getD "") (args.search.getD "")
            args.d args.u false).2.2.2.2]

/-! ## C9 — clipboard copying is best-effort -/

/-- Update never touches the copy utilities at all. -/
theorem update_memo_copyTools (cfg : Config) (w : World) (t : CopyTools) (mid : String) :
    update_memo cfg { w with copyTools := t } mid = update_memo cfg w mid := by
  cases w
  rfl

/-- Search never touches the copy utilities at all. -/
theorem search_memos_copyTools (cfg : Config) (w : World) (t : CopyTools) (q : String) :
    search_memos cfg { w with copyTools := t } q = search_memos cfg w q := by
  cases w
  rfl

/-- Delete never touches the copy utilities at all. -/
theorem delete_memo_copyTools (cfg : Config) (w : World) (t : CopyTools) (mid : String) :
    delete_memo cfg { w with copyTools := t } mid = delete_memo cfg w mid := by
  cases w
  rfl

/-- List-Last uses the copy utilities only for its clip events. -/
theorem list_last_memo_copyTools (cfg : Config) (w : World) (t : CopyTools) :
    eraseClipEvents (list_last_memo cfg { w with copyTools := t })
      = eraseClipEvents (list_last_memo cfg w) := by
  cases w with
  | mk tty sd cp ct lr sr pr ur dr =>
    unfold list_last_memo
    cases lr with
    | error e => rfl
    | ok l => cases l <;> simp [eraseClipEvents]

/-- Post uses the copy utilities only for its clip events. -/
theorem post_to_memos_copyTools (env : Env) (w : World) (t : CopyTools)
    (a b c : Bool) :
    eraseClipEvents (post_to_memos env { w with copyTools := t } a b c)
      = eraseClipEvents (post_to_memos env w a b c) := by
  cases w with
  | mk tty sd cp ct lr sr pr ur dr =>
    unfold post_to_memos
    cases get_config env <;> simp
    cases c <;> simp
    · cases tty <;> simp
      by_cases h2 : pyStrip sd = "" <;> simp [h2]
      cases pr <;> simp [eraseClipEvents]
    · cases cp with
      | none => rfl
      | some s =>
        simp only []
        by_cases h2 : s = "" <;> simp [h2]
        cases pr <;> simp [eraseClipEvents]

/-- Bumping the load counter preserves erased-event equality. -/
theorem erase_bump {r1 r2 : RunResult}
    (h : eraseClipEvents r1 = eraseClipEvents r2) :
    eraseClipEvents { r1 with configLoads := r1.configLoads + 1 }
      = eraseClipEvents { r2 with configLoads := r2.configLoads + 1 } := by
  cases r1
  cases r2
  simp [eraseClipEvents] at h ⊢
  exact h

/-- The copy-utility state never changes anything observable outside
the clip events themselves. -/
theorem runMain_copyTools (env : Env) (args : Args) (w : World) (t : CopyTools) :
    eraseClipEvents (runMain env args { w with copyTools := t })
      = eraseClipEvents (runMain env args w) := by
  unfold runMain
  cases hg : get_config env with
  | error msg => rfl
  | ok cfg =>
    cases hd : dispatchAction args <;> simp [hd]
    · cases cfg.advFeat <;> simp
      exact erase_bump (list_last_memo_copyTools cfg w t)
    · cases cfg.advFeat <;> simp
      exact erase_bump (congrArg eraseClipEvents
        (search_memos_copyTools cfg w t (args.search.getD "")))
    · cases cfg.advFeat <;> simp
      exact erase_bump (post_to_memos_copyTools env w t args.d args.u true)
    · exact erase_bump (congrArg eraseClipEvents
        (delete_memo_copyTools cfg w t (args.del.getD "")))
    · exact erase_bump (congrArg eraseClipEvents
        (update_memo_copyTools cfg w t (args.upd.getD "")))
    · exact erase_bump (post_to_memos_copyTools env w t args.d args.u false)

/-- C9: for every input and every clipboard-utility state, the
clipboard copy is best-effort and cannot fail the process: varying the
copy-utility state changes nothing but the copy events themselves —
exit code, stdout, network calls and load count are all identical —
and with neither utility present the copy does nothing at all.  (In
the embedding `copy_to_clipboard` is a total function into spawn-event
lists: the code discards the subprocess outcome, so no failure outcome
exists to surface.) -/
theorem clipboard_copy_best_effort (env : Env) (args : Args) (w : World)
    (t1 t2 : CopyTools) :
    eraseClipEvents (runMain env args { w with copyTools := t1 })
      = eraseClipEvents (runMain env args { w with copyTools := t2 }) ∧
    (runMain env args { w with copyTools := t1 }).exitCode
      = (runMain env args { w with copyTools := t2 }).exitCode ∧
    (runMain env args { w with copyTools := t1 }).stdout
      = (runMain env args { w with copyTools := t2 }).stdout ∧
    (runMain env args { w with copyTools := t1 }).netCalls
      = (runMain env args { w with copyTools := t2 }).netCalls ∧
    (∀ text : String, copy_to_clipboard { xclip := false, wlcopy := false } text = []) := by
  have h : eraseClipEvents (runMain env args { w with copyTools := t1 })
      = eraseClipEvents (runMain env args { w with copyTools := t2 }) :=
    (runMain_copyTools env args w t1).trans (runMain_copyTools env args w t2).symm
  have h1 := congrArg RunResult.exitCode h
  have h2 := congrArg RunResult.stdout h
  have h3 := congrArg RunResult.netCalls h
  exact ⟨h, h1, h2, h3, fun text => rfl⟩
